import Mathlib

/-!
Verification development for the FreeRTOS LED-control UART-menu firmware.

Shallow embedding of:
  - `command_handler.c` (normalization helpers and the menu state machine),
  - `uart_task.c` (the line assembler / reception loop),
  - `print_task.c` (the output-channel producer `print_message`).

Commands and line buffers are modelled as `List Char` (one entry per byte of
the C string, up to its terminating NUL).  The C enum `MenuState_t` is an
`int` in C, so the state is modelled as `Nat` with `MENU_MAIN = 0` and
`MENU_LED_PATTERNS = 1`; other values are the "unrecognized state" of the
defensive `default` branch.  Calls to `print_message` / `print_char` and to
the external collaborator `led_effects_set_pattern` are recorded as events.
-/

set_option maxRecDepth 8192

namespace LedUart

/-- C `isspace` in the default locale: space, \t, \n, \v, \f, \r. -/
def isspace (c : Char) : Bool :=
  c == ' ' || c == '\t' || c == '\n' || c == '\x0b' || c == '\x0c' || c == '\r'

/-- Embedding of `to_lowercase` (command_handler.c): C `tolower` applied to
each character of the string; `Char.toLower` agrees with C `tolower` on the
ASCII range. -/
def to_lowercase (s : List Char) : List Char :=
  s.map Char.toLower

/-- Embedding of `trim_whitespace` (command_handler.c).  The C function
advances a *local* copy of the `str` pointer past leading whitespace and then
cuts trailing whitespace by writing a new NUL terminator, but it never shifts
the buffer contents and returns `void`, so the caller's buffer keeps its
leading whitespace.  Net effect on the buffer: leading whitespace is kept,
trailing whitespace after the last non-whitespace character is removed, and a
string that is all whitespace (the early `return`) is left unchanged. -/
def trim_whitespace (s : List Char) : List Char :=
  s.takeWhile isspace ++ ((s.dropWhile isspace).reverse.dropWhile isspace).reverse

/-- The C enum value `MENU_MAIN = 0`. -/
def MENU_MAIN : Nat := 0

/-- The C enum value `MENU_LED_PATTERNS = 1`. -/
def MENU_LED_PATTERNS : Nat := 1

/-- Initializer of `static MenuState_t current_menu_state = MENU_MAIN;`. -/
def initial_menu_state : Nat := MENU_MAIN

/-- The argument values of the collaborator `led_effects_set_pattern`. -/
inductive LedPattern where
  | LED_PATTERN_NONE
  | LED_PATTERN_1
  | LED_PATTERN_2
  | LED_PATTERN_3
deriving DecidableEq, Repr

/-- Observable actions of the command handler: a `print_message` call with
the given text, or a call to the external collaborator
`led_effects_set_pattern` with the given pattern. -/
inductive Event where
  | print (s : String)
  | led (p : LedPattern)
deriving DecidableEq, Repr

/-- Literal text of `print_main_menu` (uart_task.c). -/
def main_menu_text : String :=
  "\r\n========================================\r\n" ++
  "              MAIN MENU\r\n" ++
  "========================================\r\n" ++
  "  1 - LED Patterns\r\n" ++
  "  2 - Exit Application\r\n" ++
  "========================================\r\n" ++
  "Enter selection: "

/-- Literal text of `print_led_patterns_menu` (command_handler.c). -/
def led_patterns_menu_text : String :=
  "\r\n========================================\r\n" ++
  "        LED Pattern Selection\r\n" ++
  "========================================\r\n" ++
  "  0 - Return to main menu\r\n" ++
  "  1 - All LEDs ON\r\n" ++
  "  2 - Different Frequency Blinking\r\n" ++
  "  3 - Same Frequency Blinking\r\n" ++
  "  4 - All LEDs OFF\r\n" ++
  "========================================\r\n" ++
  "Enter selection: "

/-- Response string of the Main-menu "2" branch. -/
def exit_confirmation_msg : String := "\r\nApplication exited. All LEDs turned OFF.\r\n"

/-- Response string of the invalid-option branches of both menus. -/
def invalid_option_msg : String := "\r\nInvalid option. Please try again.\r\n"

/-- Confirmation string of the LED-patterns "1" branch. -/
def pattern1_msg : String := "\r\nNow playing LED Pattern 1\r\n"

/-- Confirmation string of the LED-patterns "2" branch. -/
def pattern2_msg : String := "\r\nNow playing LED Pattern 2\r\n"

/-- Confirmation string of the LED-patterns "3" branch. -/
def pattern3_msg : String := "\r\nNow playing LED Pattern 3\r\n"

/-- Confirmation string of the LED-patterns "4" branch. -/
def leds_off_msg : String := "\r\nAll LEDs turned OFF\r\n"

/-- Embedding of `process_main_menu_command` (command_handler.c).  The C
function mutates the global `current_menu_state` only in the `"1"` branch; it
is invoked only while the state is `MENU_MAIN`, so returning `MENU_MAIN` in
the other branches models "state unchanged".  The result is the new state
paired with the ordered list of emitted events. -/
def process_main_menu_command (command : List Char) : Nat × List Event :=
  if command = ['1'] then
    (MENU_LED_PATTERNS, [Event.print led_patterns_menu_text])
  else if command = ['2'] then
    (MENU_MAIN,
      [Event.led LedPattern.LED_PATTERN_NONE,
       Event.print exit_confirmation_msg,
       Event.print main_menu_text])
  else
    (MENU_MAIN, [Event.print invalid_option_msg, Event.print main_menu_text])

/-- Embedding of `process_led_patterns_menu_command` (command_handler.c).
Invoked only while the state is `MENU_LED_PATTERNS`; the C function mutates
the state only in the `"0"` branch. -/
def process_led_patterns_menu_command (command : List Char) : Nat × List Event :=
  if command = ['0'] then
    (MENU_MAIN, [Event.print main_menu_text])
  else if command = ['1'] then
    (MENU_LED_PATTERNS,
      [Event.led LedPattern.LED_PATTERN_1,
       Event.print pattern1_msg,
       Event.print led_patterns_menu_text])
  else if command = ['2'] then
    (MENU_LED_PATTERNS,
      [Event.led LedPattern.LED_PATTERN_2,
       Event.print pattern2_msg,
       Event.print led_patterns_menu_text])
  else if command = ['3'] then
    (MENU_LED_PATTERNS,
      [Event.led LedPattern.LED_PATTERN_3,
       Event.print pattern3_msg,
       Event.print led_patterns_menu_text])
  else if command = ['4'] then
    (MENU_LED_PATTERNS,
      [Event.led LedPattern.LED_PATTERN_NONE,
       Event.print leds_off_msg,
       Event.print led_patterns_menu_text])
  else
    (MENU_LED_PATTERNS,
      [Event.print invalid_option_msg, Event.print led_patterns_menu_text])

/-- Embedding of `process_command` (command_handler.c): trim, lowercase, then
dispatch on the current state; the `default` branch resets an unrecognized
state to `MENU_MAIN` and re-emits the Main menu. -/
def process_command (state : Nat) (command : List Char) : Nat × List Event :=
  let cmd := to_lowercase (trim_whitespace command)
  match state with
  | 0 => process_main_menu_command cmd
  | 1 => process_led_patterns_menu_command cmd
  | _ => (MENU_MAIN, [Event.print main_menu_text])

/-- UART_RX_BUFFER_SIZE from uart_task.h. -/
def UART_RX_BUFFER_SIZE : Nat := 128

/-- COMMAND_MAX_LENGTH from uart_task.h: the item size of the command queue
(`xQueueCreate(5, COMMAND_MAX_LENGTH * sizeof(char))`). -/
def COMMAND_MAX_LENGTH : Nat := 32

/-- Depth of the command queue (`xQueueCreate(5, ...)` in uart_task.c). -/
def COMMAND_QUEUE_DEPTH : Nat := 5

/-- PRINT_MESSAGE_MAX_SIZE from print_task.h. -/
def PRINT_MESSAGE_MAX_SIZE : Nat := 512

/-- PRINT_QUEUE_DEPTH from print_task.h. -/
def PRINT_QUEUE_DEPTH : Nat := 10

/-- Error string printed by the line assembler when `xQueueSend` fails. -/
def queue_full_msg : String := "\r\nError: Command queue full!\r\n"

/-- Error string printed by the line assembler when `rx_buffer` is full. -/
def buffer_overflow_msg : String := "\r\nError: Buffer overflow!\r\n"

/-- The three-byte terminal erase sequence `"\b \b"` sent on backspace. -/
def erase_seq : String := "\x08 \x08"

/-- Messages placed on the output channel by the reception task: a
`print_message` call with the given text, or a `print_char` call echoing the
given byte. -/
inductive OutMsg where
  | msg (s : String)
  | ch (c : Char)
deriving DecidableEq, Repr

/-- The command-queue item built by `xQueueSend(command_queue, rx_buffer, ...)`
in uart_task.c: the queue copies exactly `COMMAND_MAX_LENGTH` bytes starting
at `rx_buffer`.  When the step runs, `rx_buffer` holds the accumulated
characters followed by NUL bytes (from the `memset` resets and the NUL writes),
so the item is the 32-byte prefix of the buffer padded with NULs. -/
def queue_item (buf : List Char) : List Char :=
  (buf ++ List.replicate (UART_RX_BUFFER_SIZE - buf.length) (Char.ofNat 0)).take
    COMMAND_MAX_LENGTH

/-- Result of one iteration of the reception loop: the new accumulated line
buffer (`rx_buffer[0..rx_index)`), the new command queue, the messages sent to
the output channel in order, and whether `xTaskNotifyGive` woke the command
handler. -/
structure UartStep where
  buf : List Char
  queue : List (List Char)
  out : List OutMsg
  notified : Bool
deriving DecidableEq, Repr

/-- Embedding of the per-byte body of `uart_task_handler` (uart_task.c,
the `while (1)` loop after a byte is received).  The bounded-timeout
`xQueueSend` is modelled as succeeding exactly when the queue has a free slot
(fewer than `COMMAND_QUEUE_DEPTH` items).  `buf` abstracts
`rx_buffer[0..rx_index)`; the remaining bytes of `rx_buffer` are NUL. -/
def uart_step (buf : List Char) (queue : List (List Char)) (c : Char) : UartStep :=
  if c = '\n' ∨ c = '\r' then
    if 0 < buf.length then
      if queue.length < COMMAND_QUEUE_DEPTH then
        UartStep.mk [] (queue ++ [queue_item buf]) [] true
      else
        UartStep.mk [] queue [OutMsg.msg queue_full_msg] false
    else
      UartStep.mk buf queue [] false
  else if c = '\x08' ∨ c = '\x7f' then
    if 0 < buf.length then
      UartStep.mk buf.dropLast queue [OutMsg.msg erase_seq] false
    else
      UartStep.mk buf queue [] false
  else
    if buf.length < UART_RX_BUFFER_SIZE - 1 then
      UartStep.mk (buf ++ [c]) queue [OutMsg.ch c] false
    else
      UartStep.mk [] queue [OutMsg.ch c, OutMsg.msg buffer_overflow_msg] false

/-- Iterated reception loop: feed a list of received bytes through
`uart_step`, returning the final buffer, the final command queue, and the
concatenated output-channel messages. -/
def uart_run (buf : List Char) (queue : List (List Char)) :
    List Char → List Char × List (List Char) × List OutMsg
  | [] => (buf, queue, [])
  | c :: rest =>
    let s := uart_step buf queue c
    let r := uart_run s.buf s.queue rest
    (r.1, r.2.1, s.out ++ r.2.2)

/-- The indices of `rx_buffer` written by the C code while handling one byte:
the NUL write `rx_buffer[rx_index] = 0` on a terminator with a non-empty
buffer, the erase write `rx_buffer[--rx_index] = 0` on backspace with a
non-empty buffer, and the append `rx_buffer[rx_index++] = c` for a normal
byte with room left (the full-array `memset` resets are bounded by the array
size by construction and are not listed). -/
def uart_write_indices (buf : List Char) (c : Char) : List Nat :=
  if c = '\n' ∨ c = '\r' then
    if 0 < buf.length then [buf.length] else []
  else if c = '\x08' ∨ c = '\x7f' then
    if 0 < buf.length then [buf.length - 1] else []
  else
    if buf.length < UART_RX_BUFFER_SIZE - 1 then [buf.length] else []

/-- All `rx_buffer` write indices performed over a run of received bytes. -/
def uart_run_writes (buf : List Char) (queue : List (List Char)) :
    List Char → List Nat
  | [] => []
  | c :: rest =>
    uart_write_indices buf c ++
      uart_run_writes (uart_step buf queue c).buf (uart_step buf queue c).queue rest

/-- Flatten output-channel messages to the byte sequence they carry: a
`print_message` contributes its characters, a `print_char` its single byte. -/
def out_bytes : List OutMsg → List Char
  | [] => []
  | OutMsg.msg s :: rest => s.data ++ out_bytes rest
  | OutMsg.ch c :: rest => c :: out_bytes rest

/-- Embedding of `print_message` (print_task.c) acting on the print queue.
`none` models a NULL pointer (rejected with pdFAIL).  Otherwise the message is
copied into a fixed slot via `strncpy(buffer, message, PRINT_MESSAGE_MAX_SIZE - 1)`
plus forced NUL termination — i.e. truncated to the first
`PRINT_MESSAGE_MAX_SIZE - 1` characters — and `xQueueSend` with a bounded
timeout is modelled as succeeding exactly when the queue has a free slot.
Returns the pdPASS/pdFAIL result (as `Bool`) and the new queue. -/
def print_message (queue : List (List Char)) (message : Option (List Char)) :
    Bool × List (List Char) :=
  match message with
  | none => (false, queue)
  | some msg =>
    let slot := msg.take (PRINT_MESSAGE_MAX_SIZE - 1)
    if queue.length < PRINT_QUEUE_DEPTH then
      (true, queue ++ [slot])
    else
      (false, queue)

/-- Stated from claim C7's words, for comparison with the embedded code: the
echoed byte sequence the claim requires, tracking the line-buffer length.
Every byte is echoed byte-for-byte, except that a backspace/delete (0x08 or
0x7F) received while the buffer is non-empty removes the last buffered
character and yields the three-byte erase sequence in place of the echo; the
claim makes no exception for a backspace on an empty buffer, so that byte
falls under the byte-for-byte echo. -/
def claimed_echo (len : Nat) : List Char → List Char
  | [] => []
  | c :: rest =>
    if c = '\x08' ∨ c = '\x7f' then
      if 0 < len then erase_seq.data ++ claimed_echo (len - 1) rest
      else c :: claimed_echo len rest
    else
      c :: claimed_echo (len + 1) rest

/-- The echo sequence the code actually produces (the amended form of claim
C7): as `claimed_echo`, except that a backspace/delete received while the
buffer is empty produces no output at all. -/
def amended_echo (len : Nat) : List Char → List Char
  | [] => []
  | c :: rest =>
    if c = '\x08' ∨ c = '\x7f' then
      if 0 < len then erase_seq.data ++ amended_echo (len - 1) rest
      else amended_echo len rest
    else
      c :: amended_echo (len + 1) rest

/-- Unfolding lemma for `uart_run` on a non-empty input list. -/
theorem uart_run_cons (buf : List Char) (queue : List (List Char)) (c : Char)
    (rest : List Char) :
    uart_run buf queue (c :: rest) =
      ((uart_run (uart_step buf queue c).buf (uart_step buf queue c).queue rest).1,
       (uart_run (uart_step buf queue c).buf (uart_step buf queue c).queue rest).2.1,
       (uart_step buf queue c).out ++
         (uart_run (uart_step buf queue c).buf (uart_step buf queue c).queue rest).2.2) :=
  rfl

/-- `out_bytes` distributes over list concatenation. -/
theorem out_bytes_append (a b : List OutMsg) :
    out_bytes (a ++ b) = out_bytes a ++ out_bytes b := by
  induction a with
  | nil => rfl
  | cons m rest ih =>
    cases m with
    | msg s => simp [out_bytes, ih]
    | ch c => simp [out_bytes, ih]

/-- Claim C1: `trim_whitespace` fails to strip leading whitespace — it only
moves a local pointer, so the buffer `"  1"` is left as `"  1"` and, processed
in state Main, does not match `"1"`: the code emits the invalid-option message
and stays in Main, instead of entering LedPatterns as the claim states. -/
theorem C1_code_eval :
    trim_whitespace [' ', ' ', '1'] = [' ', ' ', '1'] ∧
    process_command MENU_MAIN [' ', ' ', '1'] =
      (MENU_MAIN, [Event.print invalid_option_msg, Event.print main_menu_text]) ∧
    MENU_MAIN ≠ MENU_LED_PATTERNS := by
  refine ⟨by decide, ?_, by decide⟩
  decide

/-- Claim C2: the longest line the assembler accepts without triggering the
overflow path is 127 bytes (`UART_RX_BUFFER_SIZE - 1`), but `xQueueSend`
copies only `COMMAND_MAX_LENGTH = 32` bytes per queue item, so that line is
enqueued as its 32-byte prefix, not intact; a line one byte longer (128
bytes) does trigger the overflow error and is never enqueued. -/
theorem C2_code_eval :
    (uart_run [] [] (List.replicate 127 'a' ++ ['\r'])).2.1 =
      [List.replicate COMMAND_MAX_LENGTH 'a'] ∧
    List.replicate COMMAND_MAX_LENGTH 'a' ≠ List.replicate 127 'a' ∧
    (uart_run [] [] (List.replicate 128 'a' ++ ['\r'])).2.1 = [] ∧
    OutMsg.msg buffer_overflow_msg ∈ (uart_run [] [] (List.replicate 128 'a' ++ ['\r'])).2.2 := by
  refine ⟨by decide, by decide, by decide, by decide⟩

/-- Claim C3 counterexample: with the command queue saturated (5 items) and a
completed line `"1"`, the terminator byte makes the assembler emit
"Error: Command queue full!" and nothing else — neither menu is redisplayed
and the dispatcher (which is what prints menus) is not notified. -/
theorem C3_counterexample :
    (uart_step ['1'] (List.replicate 5 []) '\r').out = [OutMsg.msg queue_full_msg] ∧
    (uart_step ['1'] (List.replicate 5 []) '\r').notified = false ∧
    OutMsg.msg main_menu_text ∉ (uart_step ['1'] (List.replicate 5 []) '\r').out ∧
    OutMsg.msg led_patterns_menu_text ∉ (uart_step ['1'] (List.replicate 5 []) '\r').out := by
  refine ⟨by decide, by decide, by decide, by decide⟩

/-- Claim C3 as amended: the "Invalid option" error emitted by the dispatcher
is always followed by a redisplay of the currently-active menu, but the
"Error: Command queue full!" and "Error: Buffer overflow!" errors emitted by
the line assembler are not followed by any menu redisplay. -/
theorem C3_amended :
    (∀ cmd : List Char, cmd ≠ ['1'] → cmd ≠ ['2'] →
      process_main_menu_command cmd =
        (MENU_MAIN, [Event.print invalid_option_msg, Event.print main_menu_text])) ∧
    (∀ cmd : List Char, cmd ≠ ['0'] → cmd ≠ ['1'] → cmd ≠ ['2'] → cmd ≠ ['3'] → cmd ≠ ['4'] →
      process_led_patterns_menu_command cmd =
        (MENU_LED_PATTERNS,
          [Event.print invalid_option_msg, Event.print led_patterns_menu_text])) ∧
    (∀ (buf : List Char) (queue : List (List Char)) (c : Char),
      (c = '\n' ∨ c = '\r') → buf ≠ [] → COMMAND_QUEUE_DEPTH ≤ queue.length →
      (uart_step buf queue c).out = [OutMsg.msg queue_full_msg]) ∧
    (∀ (buf : List Char) (queue : List (List Char)) (c : Char),
      ¬(c = '\n' ∨ c = '\r') → ¬(c = '\x08' ∨ c = '\x7f') →
      UART_RX_BUFFER_SIZE - 1 ≤ buf.length →
      (uart_step buf queue c).out = [OutMsg.ch c, OutMsg.msg buffer_overflow_msg]) := by
  refine ⟨?_, ?_, ?_, ?_⟩
  · intro cmd h1 h2
    unfold process_main_menu_command
    rw [if_neg h1, if_neg h2]
  · intro cmd h0 h1 h2 h3 h4
    unfold process_led_patterns_menu_command
    rw [if_neg h0, if_neg h1, if_neg h2, if_neg h3, if_neg h4]
  · intro buf queue c hc hbuf hq
    have hb : 0 < buf.length := List.length_pos.mpr hbuf
    have hqn : ¬ queue.length < COMMAND_QUEUE_DEPTH := not_lt.mpr hq
    unfold uart_step
    rw [if_pos hc, if_pos hb, if_neg hqn]
  · intro buf queue c hterm hbs hlen
    have hful : ¬ buf.length < UART_RX_BUFFER_SIZE - 1 := not_lt.mpr hlen
    unfold uart_step
    rw [if_neg hterm, if_neg hbs, if_neg hful]

/-- Witness for `C3_amended` at concrete inputs: the unknown command `"9"` in
each menu, a full queue with a pending line, and an overflowing 127-byte
buffer. -/
theorem C3_amended_witness :
    process_main_menu_command ['9'] =
      (MENU_MAIN, [Event.print invalid_option_msg, Event.print main_menu_text]) ∧
    process_led_patterns_menu_command ['9'] =
      (MENU_LED_PATTERNS,
        [Event.print invalid_option_msg, Event.print led_patterns_menu_text]) ∧
    (uart_step ['1'] (List.replicate 5 []) '\r').out = [OutMsg.msg queue_full_msg] ∧
    (uart_step (List.replicate 127 'b') [] 'x').out =
      [OutMsg.ch 'x', OutMsg.msg buffer_overflow_msg] :=
  ⟨C3_amended.1 ['9'] (by decide) (by decide),
   C3_amended.2.1 ['9'] (by decide) (by decide) (by decide) (by decide) (by decide),
   C3_amended.2.2.1 ['1'] (List.replicate 5 []) '\r' (Or.inr rfl) (by decide) (by decide),
   C3_amended.2.2.2 (List.replicate 127 'b') [] 'x' (by decide) (by decide) (by decide)⟩

/-- Claim C4: in state Main, command "1" moves the state to LedPatterns and
emits the submenu; "2" calls the LED-effects collaborator with the clear-all
pattern, emits the confirmation and the Main menu, and stays in Main; any
other command stays in Main and emits the invalid-option message followed by
the Main menu. -/
theorem C4_main_menu :
    process_main_menu_command ['1'] =
      (MENU_LED_PATTERNS, [Event.print led_patterns_menu_text]) ∧
    process_main_menu_command ['2'] =
      (MENU_MAIN,
        [Event.led LedPattern.LED_PATTERN_NONE,
         Event.print exit_confirmation_msg,
         Event.print main_menu_text]) ∧
    ∀ cmd : List Char, cmd ≠ ['1'] → cmd ≠ ['2'] →
      process_main_menu_command cmd =
        (MENU_MAIN, [Event.print invalid_option_msg, Event.print main_menu_text]) := by
  refine ⟨by decide, by decide, ?_⟩
  intro cmd h1 h2
  unfold process_main_menu_command
  rw [if_neg h1, if_neg h2]

/-- Witness for `C4_main_menu` at the unrecognized command `"9"`. -/
theorem C4_main_menu_witness :
    process_main_menu_command ['9'] =
      (MENU_MAIN, [Event.print invalid_option_msg, Event.print main_menu_text]) :=
  C4_main_menu.2.2 ['9'] (by decide) (by decide)

/-- Claim C5: in state LedPatterns, "0" returns to Main and emits the Main
menu; "1".."3" call the collaborator exactly once with the corresponding
pattern, emit its confirmation and the submenu, and stay in LedPatterns; "4"
calls the collaborator once with the clear-all pattern; any other command
stays in LedPatterns and emits the invalid-option message and the submenu. -/
theorem C5_led_menu :
    process_led_patterns_menu_command ['0'] = (MENU_MAIN, [Event.print main_menu_text]) ∧
    process_led_patterns_menu_command ['1'] =
      (MENU_LED_PATTERNS,
        [Event.led LedPattern.LED_PATTERN_1, Event.print pattern1_msg,
         Event.print led_patterns_menu_text]) ∧
    process_led_patterns_menu_command ['2'] =
      (MENU_LED_PATTERNS,
        [Event.led LedPattern.LED_PATTERN_2, Event.print pattern2_msg,
         Event.print led_patterns_menu_text]) ∧
    process_led_patterns_menu_command ['3'] =
      (MENU_LED_PATTERNS,
        [Event.led LedPattern.LED_PATTERN_3, Event.print pattern3_msg,
         Event.print led_patterns_menu_text]) ∧
    process_led_patterns_menu_command ['4'] =
      (MENU_LED_PATTERNS,
        [Event.led LedPattern.LED_PATTERN_NONE, Event.print leds_off_msg,
         Event.print led_patterns_menu_text]) ∧
    ∀ cmd : List Char, cmd ≠ ['0'] → cmd ≠ ['1'] → cmd ≠ ['2'] → cmd ≠ ['3'] → cmd ≠ ['4'] →
      process_led_patterns_menu_command cmd =
        (MENU_LED_PATTERNS,
          [Event.print invalid_option_msg, Event.print led_patterns_menu_text]) := by
  refine ⟨by decide, by decide, by decide, by decide, by decide, ?_⟩
  intro cmd h0 h1 h2 h3 h4
  unfold process_led_patterns_menu_command
  rw [if_neg h0, if_neg h1, if_neg h2, if_neg h3, if_neg h4]

/-- Witness for `C5_led_menu` at the unrecognized command `"7"`. -/
theorem C5_led_menu_witness :
    process_led_patterns_menu_command ['7'] =
      (MENU_LED_PATTERNS,
        [Event.print invalid_option_msg, Event.print led_patterns_menu_text]) :=
  C5_led_menu.2.2.2.2.2 ['7'] (by decide) (by decide) (by decide) (by decide) (by decide)

/-- Claim C6: on a terminator completing a non-empty line, if the command
queue is full the assembler emits "Error: Command queue full!", drops the
line (queue unchanged), and resets the buffer to empty; if there is room the
line item is enqueued with no output; and the dispatcher is notified exactly
when the enqueue succeeds. -/
theorem C6_queue_full :
    ∀ (buf : List Char) (queue : List (List Char)) (c : Char),
      (c = '\n' ∨ c = '\r') → buf ≠ [] →
      ((COMMAND_QUEUE_DEPTH ≤ queue.length →
         uart_step buf queue c = UartStep.mk [] queue [OutMsg.msg queue_full_msg] false) ∧
       (queue.length < COMMAND_QUEUE_DEPTH →
         uart_step buf queue c = UartStep.mk [] (queue ++ [queue_item buf]) [] true) ∧
       ((uart_step buf queue c).notified = true ↔ queue.length < COMMAND_QUEUE_DEPTH)) := by
  intro buf queue c hc hbuf
  have hb : 0 < buf.length := List.length_pos.mpr hbuf
  refine ⟨?_, ?_, ?_⟩
  · intro hq
    have hqn : ¬ queue.length < COMMAND_QUEUE_DEPTH := not_lt.mpr hq
    unfold uart_step
    rw [if_pos hc, if_pos hb, if_neg hqn]
  · intro hq
    unfold uart_step
    rw [if_pos hc, if_pos hb, if_pos hq]
  · by_cases hq : queue.length < COMMAND_QUEUE_DEPTH
    · unfold uart_step
      rw [if_pos hc, if_pos hb, if_pos hq]
      simp [hq]
    · unfold uart_step
      rw [if_pos hc, if_pos hb, if_neg hq]
      simp [hq]

/-- Witness for `C6_queue_full`: a full queue with pending line `"1"`, and an
empty queue with the same line. -/
theorem C6_queue_full_witness :
    uart_step ['1'] (List.replicate 5 []) '\r' =
      UartStep.mk [] (List.replicate 5 []) [OutMsg.msg queue_full_msg] false ∧
    uart_step ['1'] [] '\r' = UartStep.mk [] [queue_item ['1']] [] true :=
  ⟨(C6_queue_full ['1'] (List.replicate 5 []) '\r' (Or.inr rfl) (by decide)).1 (by decide),
   (C6_queue_full ['1'] [] '\r' (Or.inr rfl) (by decide)).2.1 (by decide)⟩

/-- Claim C7 counterexample: a backspace received while the line buffer is
empty produces no output at all, whereas the claim's byte-for-byte echo (whose
only exception is a backspace on a non-empty buffer) requires the byte to be
echoed. -/
theorem C7_counterexample :
    out_bytes (uart_run [] [] [Char.ofNat 8]).2.2 ≠ claimed_echo 0 [Char.ofNat 8] := by
  decide

/-- Claim C7 as amended: over any burst of non-terminator bytes that fits the
line buffer, the bytes placed on the output channel are exactly the input
echoed byte-for-byte, except that a backspace/delete on a non-empty buffer
yields the three-byte erase sequence in place of the echo and a
backspace/delete on an empty buffer yields nothing. -/
theorem C7_echo :
    ∀ (bs buf : List Char) (queue : List (List Char)),
      (∀ c ∈ bs, ¬(c = '\n' ∨ c = '\r')) →
      buf.length + bs.length ≤ UART_RX_BUFFER_SIZE - 1 →
      out_bytes (uart_run buf queue bs).2.2 = amended_echo buf.length bs := by
  intro bs
  induction bs with
  | nil =>
    intro buf queue _ _
    simp [uart_run, amended_echo, out_bytes]
  | cons c rest ih =>
    intro buf queue hterm hlen
    have hc : ¬(c = '\n' ∨ c = '\r') := hterm c (List.mem_cons_self c rest)
    have hrest : ∀ x ∈ rest, ¬(x = '\n' ∨ x = '\r') :=
      fun x hx => hterm x (List.mem_cons_of_mem c hx)
    have hclen : buf.length + rest.length + 1 ≤ UART_RX_BUFFER_SIZE - 1 := by
      simp only [List.length_cons] at hlen
      omega
    rw [uart_run_cons]
    by_cases hbs : c = '\x08' ∨ c = '\x7f'
    · by_cases hpos : 0 < buf.length
      · have hstep : uart_step buf queue c =
            UartStep.mk buf.dropLast queue [OutMsg.msg erase_seq] false := by
          unfold uart_step
          rw [if_neg hc, if_pos hbs, if_pos hpos]
        have hout : (uart_step buf queue c).out = [OutMsg.msg erase_seq] := by rw [hstep]
        have hbufe : (uart_step buf queue c).buf = buf.dropLast := by rw [hstep]
        have hque : (uart_step buf queue c).queue = queue := by rw [hstep]
        have hlen' : buf.dropLast.length + rest.length ≤ UART_RX_BUFFER_SIZE - 1 := by
          rw [List.length_dropLast]
          omega
        have hrec := ih buf.dropLast queue hrest hlen'
        simp only [hout, hbufe, hque, amended_echo]
        rw [if_pos hbs, if_pos hpos, out_bytes_append, hrec, List.length_dropLast]
        simp [out_bytes]
      · have hstep : uart_step buf queue c = UartStep.mk buf queue [] false := by
          unfold uart_step
          rw [if_neg hc, if_pos hbs, if_neg hpos]
        have hout : (uart_step buf queue c).out = [] := by rw [hstep]
        have hbufe : (uart_step buf queue c).buf = buf := by rw [hstep]
        have hque : (uart_step buf queue c).queue = queue := by rw [hstep]
        have hlen' : buf.length + rest.length ≤ UART_RX_BUFFER_SIZE - 1 := by omega
        have hrec := ih buf queue hrest hlen'
        simp only [hout, hbufe, hque, amended_echo]
        rw [if_pos hbs, if_neg hpos, List.nil_append, hrec]
    · have hroom : buf.length < UART_RX_BUFFER_SIZE - 1 := by omega
      have hstep : uart_step buf queue c =
          UartStep.mk (buf ++ [c]) queue [OutMsg.ch c] false := by
        unfold uart_step
        rw [if_neg hc, if_neg hbs, if_pos hroom]
      have hout : (uart_step buf queue c).out = [OutMsg.ch c] := by rw [hstep]
      have hbufe : (uart_step buf queue c).buf = buf ++ [c] := by rw [hstep]
      have hque : (uart_step buf queue c).queue = queue := by rw [hstep]
      have hlen' : (buf ++ [c]).length + rest.length ≤ UART_RX_BUFFER_SIZE - 1 := by
        rw [List.length_append]
        simp only [List.length_singleton]
        omega
      have hrec := ih (buf ++ [c]) queue hrest hlen'
      simp only [hout, hbufe, hque, amended_echo]
      rw [if_neg hbs, out_bytes_append, hrec, List.length_append]
      simp [out_bytes]

/-- Witness for `C7_echo`: typing `a`, backspace, `b` from an empty buffer
echoes `a`, the erase triplet, then `b`. -/
theorem C7_echo_witness :
    out_bytes (uart_run [] [] ['a', Char.ofNat 8, 'b']).2.2 =
      amended_echo 0 ['a', Char.ofNat 8, 'b'] :=
  C7_echo ['a', Char.ofNat 8, 'b'] [] [] (by decide) (by decide)

/-- Claim C8: for every non-NULL input, `print_message` copies the first
`min(length, 511)` characters into a fixed 512-byte slot (511 characters plus
the forced NUL), never overflowing it, enqueues the slot when the queue has
room and fails (pdFAIL) when it is full, and a NULL input fails. -/
theorem C8_print_message :
    ∀ (queue : List (List Char)) (msg : List Char),
      (msg.take (PRINT_MESSAGE_MAX_SIZE - 1)).length =
        min (PRINT_MESSAGE_MAX_SIZE - 1) msg.length ∧
      (msg.take (PRINT_MESSAGE_MAX_SIZE - 1)).length ≤ PRINT_MESSAGE_MAX_SIZE - 1 ∧
      (msg.length ≤ PRINT_MESSAGE_MAX_SIZE - 1 →
        msg.take (PRINT_MESSAGE_MAX_SIZE - 1) = msg) ∧
      (queue.length < PRINT_QUEUE_DEPTH →
        print_message queue (some msg) = (true, queue ++ [msg.take (PRINT_MESSAGE_MAX_SIZE - 1)])) ∧
      (PRINT_QUEUE_DEPTH ≤ queue.length →
        print_message queue (some msg) = (false, queue)) ∧
      print_message queue none = (false, queue) := by
  intro queue msg
  refine ⟨List.length_take _ _, List.length_take_le _ _, List.take_of_length_le, ?_, ?_, rfl⟩
  · intro hq
    simp only [print_message]
    rw [if_pos hq]
  · intro hq
    simp only [print_message]
    rw [if_neg (not_lt.mpr hq)]

/-- Witness for `C8_print_message`: the short message `"hi"` on an empty
queue is enqueued unchanged. -/
theorem C8_print_message_witness :
    print_message [] (some ['h', 'i']) = (true, [['h', 'i']]) := by
  have h := (C8_print_message [] ['h', 'i']).2.2.2.1 (by decide)
  simpa using h

/-- Claim C9: the menu state starts as Main; after any `process_command` the
state is Main or LedPatterns; and an unrecognized state value (anything other
than 0 or 1) is reset to Main with the Main menu re-emitted. -/
theorem C9_state_invariant :
    initial_menu_state = MENU_MAIN ∧
    (∀ (s : Nat) (cmd : List Char),
      (process_command s cmd).1 = MENU_MAIN ∨
      (process_command s cmd).1 = MENU_LED_PATTERNS) ∧
    (∀ (s : Nat) (cmd : List Char), 2 ≤ s →
      process_command s cmd = (MENU_MAIN, [Event.print main_menu_text])) := by
  refine ⟨rfl, ?_, ?_⟩
  · intro s cmd
    match s with
    | 0 =>
      show (process_main_menu_command _).1 = _ ∨ (process_main_menu_command _).1 = _
      unfold process_main_menu_command
      split_ifs <;> first | exact Or.inl rfl | exact Or.inr rfl
    | 1 =>
      show (process_led_patterns_menu_command _).1 = _ ∨
        (process_led_patterns_menu_command _).1 = _
      unfold process_led_patterns_menu_command
      split_ifs <;> first | exact Or.inl rfl | exact Or.inr rfl
    | n + 2 => exact Or.inl rfl
  · intro s cmd hs
    obtain ⟨n, rfl⟩ : ∃ n, s = n + 2 := ⟨s - 2, by omega⟩
    rfl

/-- Witness for `C9_state_invariant`: the unrecognized state value 7 is reset
to Main and the Main menu is re-emitted. -/
theorem C9_state_invariant_witness :
    process_command 7 ['1'] = (MENU_MAIN, [Event.print main_menu_text]) :=
  C9_state_invariant.2.2 7 ['1'] (by decide)

/-- One reception step preserves the bound `rx_index ≤ UART_RX_BUFFER_SIZE - 1`. -/
theorem uart_step_buf_le (buf : List Char) (queue : List (List Char)) (c : Char)
    (h : buf.length ≤ UART_RX_BUFFER_SIZE - 1) :
    (uart_step buf queue c).buf.length ≤ UART_RX_BUFFER_SIZE - 1 := by
  unfold uart_step
  split_ifs <;>
    (try simp only [List.length_dropLast, List.length_append, List.length_singleton,
      List.length_nil]) <;>
    omega

/-- Every `rx_buffer` write index of one step is inside the array, given the
index bound. -/
theorem uart_write_indices_lt (buf : List Char) (c : Char)
    (h : buf.length ≤ UART_RX_BUFFER_SIZE - 1) :
    ∀ i ∈ uart_write_indices buf c, i < UART_RX_BUFFER_SIZE := by
  unfold uart_write_indices
  split_ifs <;> intro i hi <;> (try simp only [List.mem_singleton] at hi) <;>
    first
    | (exact absurd hi (List.not_mem_nil i))
    | (subst hi; unfold UART_RX_BUFFER_SIZE at h ⊢; omega)

/-- The reception-loop invariant over a whole run, for any start buffer
satisfying the bound. -/
theorem uart_run_inv (bs : List Char) :
    ∀ (buf : List Char) (queue : List (List Char)),
      buf.length ≤ UART_RX_BUFFER_SIZE - 1 →
      (uart_run buf queue bs).1.length ≤ UART_RX_BUFFER_SIZE - 1 ∧
      ∀ i ∈ uart_run_writes buf queue bs, i < UART_RX_BUFFER_SIZE := by
  induction bs with
  | nil =>
    intro buf queue h
    exact ⟨h, by intro i hi; exact absurd hi (List.not_mem_nil i)⟩
  | cons c rest ih =>
    intro buf queue h
    have hstep := uart_step_buf_le buf queue c h
    obtain ⟨h1, h2⟩ := ih (uart_step buf queue c).buf (uart_step buf queue c).queue hstep
    refine ⟨by rw [uart_run_cons]; exact h1, ?_⟩
    intro i hi
    simp only [uart_run_writes, List.mem_append] at hi
    rcases hi with hi | hi
    · exact uart_write_indices_lt buf c h i hi
    · exact h2 i hi

/-- Claim C10: starting from the empty buffer, the reception loop keeps
`rx_index` within `0 ≤ rx_index ≤ UART_RX_BUFFER_SIZE - 1`, and every write
to `rx_buffer` (append, NUL termination, backspace erasure) lands at an index
strictly below `UART_RX_BUFFER_SIZE`. -/
theorem C10_buffer_bounds :
    ∀ (bs : List Char) (queue : List (List Char)),
      (uart_run [] queue bs).1.length ≤ UART_RX_BUFFER_SIZE - 1 ∧
      ∀ i ∈ uart_run_writes [] queue bs, i < UART_RX_BUFFER_SIZE := by
  intro bs queue
  exact uart_run_inv bs [] queue (by simp [UART_RX_BUFFER_SIZE])

/-- Witness for `C10_buffer_bounds`: after typing `a` the index is in bounds,
and the append write of that step (index 0) is inside the array. -/
theorem C10_buffer_bounds_witness :
    (uart_run [] [] ['a']).1.length ≤ UART_RX_BUFFER_SIZE - 1 ∧
    (0 : Nat) < UART_RX_BUFFER_SIZE :=
  ⟨(C10_buffer_bounds ['a'] []).1, (C10_buffer_bounds ['a'] []).2 0 (by decide)⟩

end LedUart
